import Mathlib

/-!
Verification of the session-lifecycle client and audio/transcription pipeline
of `streamlit_app.py` (ver-12.2), via a shallow embedding: JSON-like Python
values become an inductive `PyVal`, the HTTP helpers become pure functions
over an abstract transport, and the Start-button handler becomes a function
producing an explicit event trace.
-/

namespace Avatharam

/-- JSON-like Python values as they occur in the app: `None`, booleans,
integers, strings, lists and string-keyed dicts. -/
inductive PyVal where
  | none
  | bool (b : Bool)
  | int (n : Int)
  | str (s : String)
  | list (xs : List PyVal)
  | dict (kvs : List (String × PyVal))

/-- Python truthiness (`bool(v)`): `None`, `0`, `""`, `[]`, `{}` are falsy. -/
def PyVal.isTruthy : PyVal → Bool
  | .none => false
  | .bool b => b
  | .int n => n != 0
  | .str s => s != ""
  | .list xs => !xs.isEmpty
  | .dict kvs => !kvs.isEmpty

/-- First-match association-list lookup (Python dict keys are unique, so
first-match agrees with dict lookup). -/
def lookupKey (kvs : List (String × PyVal)) (k : String) : PyVal :=
  match kvs with
  | [] => .none
  | (k', v) :: rest => if k' = k then v else lookupKey rest k

/-- Python `d.get(k)` on a dict, defaulting to `None`; non-dicts yield
`None` (the code only calls `.get` on values it treats as dicts). -/
def PyVal.get : PyVal → String → PyVal
  | .dict kvs, k => lookupKey kvs k
  | _, _ => .none

/-- Python `a or b`: `a` if truthy, else `b`. -/
def pyOr (a b : PyVal) : PyVal := if a.isTruthy then a else b

/-- Python `isinstance(v, list) and v`: `v` is a list and non-empty. -/
def isNonemptyList : PyVal → Bool
  | .list (_ :: _) => true
  | _ => false

-- ------------- Endpoints (lines 98-102) -------------

def BASE : String := "https://api.heygen.com/v1"
def API_STREAM_NEW : String := BASE ++ "/streaming.new"
def API_CREATE_TOKEN : String := BASE ++ "/streaming.create_token"
def API_STREAM_TASK : String := BASE ++ "/streaming.task"
def API_STREAM_STOP : String := BASE ++ "/streaming.stop"

-- ------------- Debug buffer (lines 109-114) -------------

/-- Function `debug(msg)`: append the message, then truncate to the most
recent 1000 entries when the buffer exceeds 1000 (`ss.debug_buf[-1000:]`). -/
def debug (buf : List String) (msg : String) : List String :=
  let b := buf ++ [msg]
  if 1000 < b.length then b.drop (b.length - 1000) else b

-- ------------- Session helpers (lines 149-180) -------------

/-- The hard-coded fallback RTC config of `new_session`:
`{"iceServers":[{"urls":["stun:stun.l.google.com:19302"]}]}`. -/
def defaultRtcConfig : PyVal :=
  .dict [("iceServers", .list [.dict [("urls", .list [.str "stun:stun.l.google.com:19302"])]])]

/-- The dict returned by `new_session` on success. -/
structure SessionInfo where
  session_id : PyVal
  offer_sdp : PyVal
  rtc_config : PyVal

/-- Function `new_session`, embedded over the response body of `streaming.new`:
extract `data`, the session id, the offer SDP under `offer` or `sdp`,
choose the ICE servers from `ice_servers2`, else `ice_servers`, else the
default; raise (`Except.error`) when the id or offer is missing. -/
def new_session (body : PyVal) : Except String SessionInfo :=
  let data := pyOr (body.get "data") (.dict [])
  let sid := data.get "session_id"
  let offer_sdp := (pyOr (data.get "offer") (pyOr (data.get "sdp") (.dict []))).get "sdp"
  let ice2 := data.get "ice_servers2"
  let ice1 := data.get "ice_servers"
  let rtc_config :=
    if isNonemptyList ice2 then PyVal.dict [("iceServers", ice2)]
    else if isNonemptyList ice1 then PyVal.dict [("iceServers", ice1)]
    else defaultRtcConfig
  if !sid.isTruthy || !offer_sdp.isTruthy then
    .error "Missing session_id or offer in response"
  else
    .ok ⟨sid, offer_sdp, rtc_config⟩

/-- Function `create_session_token`, embedded over the response body of
`streaming.create_token`: the token may sit under `token` or
`access_token`; raise when absent. -/
def create_session_token (body : PyVal) : Except String PyVal :=
  let tok := pyOr ((pyOr (body.get "data") (.dict [])).get "token")
                  ((pyOr (body.get "data") (.dict [])).get "access_token")
  if !tok.isTruthy then .error "Missing token in response" else .ok tok

-- ------------- Command dispatch (lines 126-133, 169-176) -------------

/-- Authentication scheme of an outgoing request: per-session bearer token,
or the account-level shared key (`x-api-key`). -/
inductive Auth where
  | bearer (token : String)
  | xapi
deriving DecidableEq

/-- Body of a `streaming.task` request as built by `send_echo`. -/
structure TaskPayload where
  session_id : String
  task_type : String
  task_mode : String
  text : String
deriving DecidableEq

/-- One outgoing HTTP POST. -/
structure Request where
  url : String
  auth : Auth
  payload : TaskPayload
deriving DecidableEq

/-- Function `send_echo(session_id, session_token, text)`: a single `_post_bearer`
to `streaming.task` with a `repeat`/`sync` payload. `_post_bearer` calls
`r.raise_for_status()` on any status `>= 400`, so failure propagates as an
exception (`Except.error status`). Returns the result together with the
list of requests issued, in order. -/
def send_echo (transport : String → Auth → Nat) (session_id session_token text : String) :
    Except Nat Unit × List Request :=
  let req : Request :=
    ⟨API_STREAM_TASK, .bearer session_token, ⟨session_id, "repeat", "sync", text⟩⟩
  let status := transport API_STREAM_TASK (.bearer session_token)
  if 400 ≤ status then (.error status, [req]) else (.ok (), [req])

-- ------------- Start button handler (lines 196-208) -------------

/-- Observable events of the Start-button handler, in program order. -/
inductive Event where
  | stopOld
  | sleepMs (ms : Nat)
  | callNew
  | callToken
  | markReady
deriving DecidableEq

/-- Responses of the remote service for one start sequence. -/
structure Remote where
  newResp : PyVal
  tokenResp : PyVal

/-- Session state published to the viewer when the handler completes. -/
structure ReadyState where
  session_id : PyVal
  session_token : PyVal
  offer_sdp : PyVal
  rtc_config : PyVal

/-- The Start-button handler: if the stored session id and token are both
truthy, `stop_session` then `time.sleep(0.2)`; then `new_session`,
`create_session_token`, `time.sleep(1.0)`, and only then publish the
session to `st.session_state` (the `markReady` event). An exception from
either remote call aborts the sequence at that point. -/
def start_handler (cur_sid cur_tok : PyVal) (remote : Remote) :
    Except String ReadyState × List Event :=
  let pre : List Event :=
    if cur_sid.isTruthy && cur_tok.isTruthy then [.stopOld, .sleepMs 200] else []
  match new_session remote.newResp with
  | .error e => (.error e, pre ++ [.callNew])
  | .ok info =>
    match create_session_token remote.tokenResp with
    | .error e => (.error e, pre ++ [.callNew, .callToken])
    | .ok tok =>
      (.ok ⟨info.session_id, tok, info.offer_sdp, info.rtc_config⟩,
       pre ++ [.callNew, .callToken, .sleepMs 1000, .markReady])

-- ------------- Mic capture block (lines 250-277) -------------

/-- Payload returned by the `mic_recorder` widget: a dict containing a
`bytes` entry, a raw `bytes`/`bytearray` value, or something unexpected. -/
inductive MicPayload where
  | dictWithBytes (b : List Nat)
  | raw (b : List Nat)
  | other

/-- The capture block: extract `wav_bytes` from the widget's payload.
Either `audio["bytes"]` or `bytes(audio)` is taken as-is; `None` (still
waiting) or an unexpected payload leaves `wav_bytes` as `None`. -/
def capture_block (audio : Option MicPayload) : Option (List Nat) :=
  match audio with
  | Option.none => Option.none
  | some (.dictWithBytes b) => some b
  | some (.raw b) => some b
  | some .other => Option.none

-- ------------- Transcription block (lines 279-298) -------------

/-- The stub substituted when whisper is absent or produced no text. -/
def FALLBACK_TEXT : String := "Thanks! (audio captured)"

/-- Body of the `try:` block: run the model on the captured bytes and
join the segment texts with spaces, stripped. The engine is abstract; an
`Except.error` is a raised exception. -/
def whisperAttempt (wav_bytes : List Nat)
    (engine : List Nat → Except String (List String)) : Except String String :=
  (engine wav_bytes).map (fun segs => (String.intercalate " " segs).trim)

/-- The transcription block: `text` starts empty; when faster-whisper is
installed the attempt runs and any exception is caught (leaving `text`
empty); if `text` is still empty the fallback stub is substituted. -/
def transcription_step (hasFWhisper : Bool) (wav_bytes : List Nat)
    (engine : List Nat → Except String (List String)) : String :=
  let text :=
    if hasFWhisper then
      match whisperAttempt wav_bytes engine with
      | .ok t => t
      | .error _ => ""
    else ""
  if text = "" then FALLBACK_TEXT else text

-- ------------- Viewer rendering (lines 217-228) -------------

/-- Lowercase hexadecimal digit, as printed by `"%04x" % n`. -/
def hexDigit (n : Nat) : Char :=
  if n < 10 then Char.ofNat (48 + n) else Char.ofNat (87 + n)

/-- Four lowercase hex digits of `n < 0x10000`. -/
def hex4 (n : Nat) : List Char :=
  [hexDigit (n / 4096 % 16), hexDigit (n / 256 % 16), hexDigit (n / 16 % 16), hexDigit (n % 16)]

/-- A `\uXXXX` escape, with a surrogate pair above `0xFFFF`, as produced by
`json.dumps` with its default `ensure_ascii=True`. -/
def uEscape (n : Nat) : List Char :=
  if n < 0x10000 then '\\' :: 'u' :: hex4 n
  else
    let m := n - 0x10000
    ('\\' :: 'u' :: hex4 (0xD800 + m / 0x400)) ++ ('\\' :: 'u' :: hex4 (0xDC00 + m % 0x400))

/-- How `json.dumps` (default settings) renders one character inside a
string: `"` and `\` and the control characters get escapes, characters
outside `0x20`-`0x7e` get `\uXXXX`, the rest pass through. -/
def jsonEscapeChar (c : Char) : List Char :=
  if c = '"' then ['\\', '"']
  else if c = '\\' then ['\\', '\\']
  else if c = '\n' then ['\\', 'n']
  else if c = '\r' then ['\\', 'r']
  else if c = '\t' then ['\\', 't']
  else if c.toNat = 8 then ['\\', 'b']
  else if c.toNat = 12 then ['\\', 'f']
  else if c.toNat < 32 ∨ 126 < c.toNat then uEscape c.toNat
  else [c]

/-- Python `json.dumps(s)[1:-1]`: the JSON rendering of the string `s` with the
surrounding quotes stripped — exactly what line 224 substitutes for
`__OFFER_SDP__`. -/
def json_dumps_str_body (s : String) : String :=
  String.mk (s.data.flatMap jsonEscapeChar)

/-- Substitution of `__OFFER_SDP__` in the viewer-rendering block:
`template.replace("__OFFER_SDP__", json.dumps(ss.offer_sdp)[1:-1])`. -/
def render_offer (template offer_sdp : String) : String :=
  template.replace "__OFFER_SDP__" (json_dumps_str_body offer_sdp)

-- ===================== Theorems =====================

/-- C10: the debug buffer never holds more than 1000 entries — every call
to `debug` appends one entry and then truncates to the most recent 1000,
so the result always has length at most 1000, is a suffix of the appended
buffer (the most recent entries), and still contains the new message. -/
theorem debug_buffer_bounded (buf : List String) (msg : String) :
    (debug buf msg).length ≤ 1000 ∧
    (debug buf msg).IsSuffix (buf ++ [msg]) ∧
    msg ∈ debug buf msg := by
  unfold debug
  by_cases h : 1000 < (buf ++ [msg]).length
  · rw [if_pos h]
    refine ⟨?_, List.drop_suffix _ _, ?_⟩
    · rw [List.length_drop]
      omega
    · have hk : (buf ++ [msg]).length - 1000 ≤ buf.length := by
        simp only [List.length_append, List.length_singleton]
        omega
      rw [List.drop_append_of_le_length hk]
      exact List.mem_append_right _ (List.mem_singleton.mpr rfl)
  · rw [if_neg h]
    refine ⟨by omega, List.suffix_refl _, List.mem_append_right _ (List.mem_singleton.mpr rfl)⟩

/-- C2 counterexample: one second of 48 kHz 16-bit mono audio is 96000
bytes; the capture block stores those 96000 bytes verbatim, not the 32000
bytes (16000 samples) the claim requires after resampling to 16 kHz. -/
theorem capture_no_resample_counterexample :
    (capture_block (some (.dictWithBytes (List.replicate 96000 0)))).map List.length
      = some 96000 ∧ (96000 : Nat) ≠ 16000 * 2 := by
  constructor
  · show (some (List.replicate 96000 (0 : Nat))).map List.length = some 96000
    rw [Option.map_some', List.length_replicate]
  · decide

/-- C2 amended: the capture block performs no resampling and no
accumulation arithmetic at all — whatever byte string the recorder widget
delivers is stored unchanged (and a missing or unexpected payload yields
nothing), so the drained bytes stay at the native sample rate. -/
theorem capture_block_passthrough (b : List Nat) :
    capture_block (some (.dictWithBytes b)) = some b ∧
    capture_block (some (.raw b)) = some b ∧
    capture_block Option.none = Option.none ∧
    capture_block (some .other) = Option.none :=
  ⟨rfl, rfl, rfl, rfl⟩

/-- C1 counterexample: with the bearer task route answering 404 and the
legacy shared-key route answering 200, the claim requires dispatch to
succeed on the second convention; `send_echo` instead raises
(`Except.error 404`) after a single bearer request to `streaming.task`
and never issues a second request. -/
theorem send_echo_single_route_counterexample :
    (send_echo (fun _ a => match a with | .bearer _ => 404 | .xapi => 200)
        "sid" "tok" "hello").1 = .error 404 ∧
    (send_echo (fun _ a => match a with | .bearer _ => 404 | .xapi => 200)
        "sid" "tok" "hello").2
      = [⟨API_STREAM_TASK, .bearer "tok", ⟨"sid", "repeat", "sync", "hello"⟩⟩] :=
  ⟨rfl, rfl⟩

/-- C1 amended: for every transport and every session, `send_echo` makes
exactly one attempt — a bearer-token request to the primary task route —
succeeding exactly when that single response status is below 400, and
raising the HTTP error (an exception, not a failure return) on any status
of 400 or more; no legacy shared-key attempt is ever made, and the stored
session is not touched. -/
theorem send_echo_bearer_only (transport : String → Auth → Nat)
    (sid tok text : String) :
    (send_echo transport sid tok text).2
      = [⟨API_STREAM_TASK, .bearer tok, ⟨sid, "repeat", "sync", text⟩⟩] ∧
    ((send_echo transport sid tok text).1 = .ok ()
      ↔ transport API_STREAM_TASK (.bearer tok) < 400) ∧
    (400 ≤ transport API_STREAM_TASK (.bearer tok) →
      (send_echo transport sid tok text).1
        = .error (transport API_STREAM_TASK (.bearer tok))) := by
  unfold send_echo
  by_cases h : 400 ≤ transport API_STREAM_TASK (.bearer tok)
  · rw [if_pos h]
    refine ⟨rfl, ?_, fun _ => rfl⟩
    constructor
    · intro hc
      exact absurd hc (by simp)
    · intro hlt
      omega
  · rw [if_neg h]
    exact ⟨rfl, ⟨fun _ => by omega, fun _ => rfl⟩, fun hc => absurd hc h⟩

/-- C1 amended, witness: a 200 transport makes `send_echo` succeed and a
500 transport makes it raise `Except.error 500`. -/
theorem send_echo_bearer_only_witness :
    (send_echo (fun _ _ => 200) "s" "t" "x").1 = .ok () ∧
    (send_echo (fun _ _ => 500) "s" "t" "x").1 = .error 500 :=
  ⟨(send_echo_bearer_only (fun _ _ => 200) "s" "t" "x").2.1.mpr (by decide),
   (send_echo_bearer_only (fun _ _ => 500) "s" "t" "x").2.2 (by decide)⟩

/-- C7: transcription never propagates an engine failure — without a
configured backend the result is the fixed fallback stub for every
possible audio input (so the fallback is deterministic and independent of
the captured audio, hence not a transcription of it); an engine exception
is caught and likewise degrades to the stub; and the block always
produces some non-empty text rather than an error. -/
theorem transcription_never_fatal (wav : List Nat)
    (engine : List Nat → Except String (List String)) :
    (∀ b : List Nat, transcription_step false b engine = FALLBACK_TEXT) ∧
    (∀ e, engine wav = .error e → transcription_step true wav engine = FALLBACK_TEXT) ∧
    (∀ hasFW : Bool, transcription_step hasFW wav engine ≠ "") := by
  refine ⟨fun b => rfl, ?_, ?_⟩
  · intro e he
    simp [transcription_step, whisperAttempt, he, Except.map]
  · intro hasFW
    unfold transcription_step
    by_cases h : (if hasFW then
        match whisperAttempt wav engine with
        | .ok t => t
        | .error _ => "" else "") = ""
    · rw [if_pos h]
      decide
    · rw [if_neg h]
      exact h

/-- C7 witness: with no backend the stub is returned for a concrete
recording, and a concrete engine exception also yields the stub. -/
theorem transcription_never_fatal_witness :
    transcription_step false [1, 2] (fun _ => .ok ["hi"]) = FALLBACK_TEXT ∧
    transcription_step true [1, 2] (fun _ => .error "boom") = FALLBACK_TEXT :=
  ⟨(transcription_never_fatal [1, 2] (fun _ => .ok ["hi"])).1 [1, 2],
   (transcription_never_fatal [1, 2] (fun _ => .error "boom")).2.1 "boom" rfl⟩

/-- Unfolding lemma: truthiness of `None`. -/
theorem isTruthy_none : PyVal.none.isTruthy = false := rfl

/-- Unfolding lemma: truthiness of a dict literal. -/
theorem isTruthy_dict (kvs : List (String × PyVal)) :
    (PyVal.dict kvs).isTruthy = !kvs.isEmpty := rfl

/-- Unfolding lemma: `get` on a dict literal is association lookup. -/
theorem get_dict (kvs : List (String × PyVal)) (k : String) :
    (PyVal.dict kvs).get k = lookupKey kvs k := rfl

/-- C3: for a valid create-session response carrying the connection
descriptor under either alternate key name — `offer` or `sdp` —
`new_session` succeeds and extracts the same descriptor value (the `sdp`
entry of the carried dict) regardless of which key was used. -/
theorem new_session_offer_key_independent (sid v : PyVal)
    (hsid : sid.isTruthy = true) (hv : v.isTruthy = true)
    (hsdp : (v.get "sdp").isTruthy = true) :
    ∃ i1 i2,
      new_session (.dict [("data", .dict [("session_id", sid), ("offer", v)])]) = .ok i1 ∧
      new_session (.dict [("data", .dict [("session_id", sid), ("sdp", v)])]) = .ok i2 ∧
      i1.offer_sdp = i2.offer_sdp ∧ i1.offer_sdp = v.get "sdp" := by
  refine ⟨⟨sid, v.get "sdp", defaultRtcConfig⟩, ⟨sid, v.get "sdp", defaultRtcConfig⟩,
    ?_, ?_, rfl, rfl⟩ <;>
  simp [new_session, pyOr, get_dict, lookupKey, isTruthy_none, isTruthy_dict, isNonemptyList,
    hsid, hv, hsdp]

/-- C3 witness: a concrete valid response with the descriptor under
`offer` and the same one under `sdp` yield the same extracted value. -/
theorem new_session_offer_key_independent_witness :
    ∃ i1 i2,
      new_session (.dict [("data", .dict [("session_id", .str "S"),
        ("offer", .dict [("sdp", .str "v=0")])])]) = .ok i1 ∧
      new_session (.dict [("data", .dict [("session_id", .str "S"),
        ("sdp", .dict [("sdp", .str "v=0")])])]) = .ok i2 ∧
      i1.offer_sdp = i2.offer_sdp ∧
      i1.offer_sdp = (PyVal.dict [("sdp", .str "v=0")]).get "sdp" :=
  new_session_offer_key_independent (.str "S") (.dict [("sdp", .str "v=0")])
    (by decide) rfl rfl

/-- C4: whenever both relay-server keys (`ice_servers2` and `ice_servers`)
are missing, not lists, or empty lists, a successful `new_session` returns
the default configuration, which carries exactly one relay entry — the
public STUN server — never an empty list. -/
theorem new_session_default_ice (body : PyVal)
    (h2 : isNonemptyList ((pyOr (body.get "data") (.dict [])).get "ice_servers2") = false)
    (h1 : isNonemptyList ((pyOr (body.get "data") (.dict [])).get "ice_servers") = false)
    (hsid : ((pyOr (body.get "data") (.dict [])).get "session_id").isTruthy = true)
    (hoffer : ((pyOr ((pyOr (body.get "data") (.dict [])).get "offer")
        (pyOr ((pyOr (body.get "data") (.dict [])).get "sdp") (.dict []))).get "sdp").isTruthy
      = true) :
    ∃ info, new_session body = .ok info ∧ info.rtc_config = defaultRtcConfig ∧
      defaultRtcConfig
        = .dict [("iceServers",
            .list [.dict [("urls", .list [.str "stun:stun.l.google.com:19302"])]])] := by
  refine ⟨⟨(pyOr (body.get "data") (.dict [])).get "session_id",
    (pyOr ((pyOr (body.get "data") (.dict [])).get "offer")
      (pyOr ((pyOr (body.get "data") (.dict [])).get "sdp") (.dict []))).get "sdp",
    defaultRtcConfig⟩, ?_, rfl, rfl⟩
  simp [new_session, h2, h1, hsid, hoffer]

/-- C4 witness: a concrete response with no relay keys at all gets the
single-entry default configuration. -/
theorem new_session_default_ice_witness :
    ∃ info,
      new_session (.dict [("data", .dict [("session_id", .str "S"),
        ("offer", .dict [("sdp", .str "v=0")])])]) = .ok info ∧
      info.rtc_config = defaultRtcConfig ∧
      defaultRtcConfig
        = .dict [("iceServers",
            .list [.dict [("urls", .list [.str "stun:stun.l.google.com:19302"])]])] :=
  new_session_default_ice
    (.dict [("data", .dict [("session_id", .str "S"), ("offer", .dict [("sdp", .str "v=0")])])])
    rfl rfl (by decide) (by decide)

/-- C5: when the create-session response is missing the session identifier
or the connection descriptor (after both alternate keys), the start
sequence surfaces the error immediately — the handler result is that very
error, token issuance is never invoked, and the create-session call is
made exactly once (no retry). -/
theorem start_aborts_on_protocol_error (cur_sid cur_tok : PyVal) (remote : Remote)
    (e : String) (h : new_session remote.newResp = .error e) :
    (start_handler cur_sid cur_tok remote).1 = .error e ∧
    Event.callToken ∉ (start_handler cur_sid cur_tok remote).2 ∧
    (start_handler cur_sid cur_tok remote).2.count Event.callNew = 1 := by
  unfold start_handler
  rw [h]
  by_cases hc : cur_sid.isTruthy && cur_tok.isTruthy
  · rw [if_pos hc]
    refine ⟨rfl, ?_, ?_⟩
    · show Event.callToken ∉ [Event.stopOld, Event.sleepMs 200] ++ [Event.callNew]
      decide
    · show ([Event.stopOld, Event.sleepMs 200] ++ [Event.callNew]).count Event.callNew = 1
      decide
  · rw [if_neg hc]
    refine ⟨rfl, ?_, ?_⟩
    · show Event.callToken ∉ [] ++ [Event.callNew]
      decide
    · show (([] : List Event) ++ [Event.callNew]).count Event.callNew = 1
      decide

/-- C5 witness: an empty response body makes `new_session` raise, the
handler stop with that error, and the token call never happen. -/
theorem start_aborts_on_protocol_error_witness :
    (start_handler PyVal.none PyVal.none ⟨PyVal.dict [], PyVal.dict []⟩).1
      = .error "Missing session_id or offer in response" ∧
    Event.callToken ∉ (start_handler PyVal.none PyVal.none ⟨PyVal.dict [], PyVal.dict []⟩).2 ∧
    (start_handler PyVal.none PyVal.none
        ⟨PyVal.dict [], PyVal.dict []⟩).2.count Event.callNew = 1 :=
  start_aborts_on_protocol_error PyVal.none PyVal.none ⟨PyVal.dict [], PyVal.dict []⟩
    "Missing session_id or offer in response" rfl

/-- C6: every successful start sequence performs the fixed 1000 ms settle
sleep exactly once, strictly after the token-issuance call and strictly
before the session is marked ready; no ready marking and no settle sleep
occur earlier in the trace. -/
theorem settle_once_before_ready (cur_sid cur_tok : PyVal) (remote : Remote)
    (st : ReadyState) (h : (start_handler cur_sid cur_tok remote).1 = .ok st) :
    ∃ pre, (start_handler cur_sid cur_tok remote).2
        = pre ++ [Event.callNew, Event.callToken, Event.sleepMs 1000, Event.markReady] ∧
      Event.sleepMs 1000 ∉ pre ∧ Event.markReady ∉ pre ∧ Event.callToken ∉ pre ∧
      (start_handler cur_sid cur_tok remote).2.count (Event.sleepMs 1000) = 1 := by
  unfold start_handler at h ⊢
  cases hn : new_session remote.newResp with
  | error e => simp [hn] at h
  | ok info =>
    cases ht : create_session_token remote.tokenResp with
    | error e => simp [hn, ht] at h
    | ok tok =>
      by_cases hc : cur_sid.isTruthy && cur_tok.isTruthy
      · rw [if_pos hc]
        refine ⟨[Event.stopOld, Event.sleepMs 200], rfl, by decide, by decide, by decide, ?_⟩
        show (([Event.stopOld, Event.sleepMs 200]
          ++ [Event.callNew, Event.callToken, Event.sleepMs 1000,
              Event.markReady]).count (Event.sleepMs 1000)) = 1
        decide
      · rw [if_neg hc]
        refine ⟨[], rfl, by decide, by decide, by decide, ?_⟩
        show ((([] : List Event)
          ++ [Event.callNew, Event.callToken, Event.sleepMs 1000,
              Event.markReady]).count (Event.sleepMs 1000)) = 1
        decide

/-- C6 witness: a concrete successful start produces the trace
create, token, settle 1000 ms, ready — with the settle sleep exactly once
between token issuance and readiness. -/
theorem settle_once_before_ready_witness :
    ∃ pre, (start_handler PyVal.none PyVal.none
        ⟨.dict [("data", .dict [("session_id", .str "S"),
            ("offer", .dict [("sdp", .str "v=0")])])],
         .dict [("data", .dict [("token", .str "T")])]⟩).2
        = pre ++ [Event.callNew, Event.callToken, Event.sleepMs 1000, Event.markReady] ∧
      Event.sleepMs 1000 ∉ pre ∧ Event.markReady ∉ pre ∧ Event.callToken ∉ pre ∧
      (start_handler PyVal.none PyVal.none
        ⟨.dict [("data", .dict [("session_id", .str "S"),
            ("offer", .dict [("sdp", .str "v=0")])])],
         .dict [("data", .dict [("token", .str "T")])]⟩).2.count (Event.sleepMs 1000) = 1 :=
  settle_once_before_ready PyVal.none PyVal.none
    ⟨.dict [("data", .dict [("session_id", .str "S"),
        ("offer", .dict [("sdp", .str "v=0")])])],
     .dict [("data", .dict [("token", .str "T")])]⟩
    ⟨.str "S", .str "T", .str "v=0", defaultRtcConfig⟩ rfl

/-- C8: whenever the Start handler runs while a prior session is live
(stored id and token both truthy), the trace begins by stopping the old
session (followed by the 200 ms pause) before the create-session call —
the old session is never left un-stopped. -/
theorem stop_old_before_new (cur_sid cur_tok : PyVal) (remote : Remote)
    (hs : cur_sid.isTruthy = true) (ht : cur_tok.isTruthy = true) :
    ∃ rest, (start_handler cur_sid cur_tok remote).2
        = Event.stopOld :: Event.sleepMs 200 :: Event.callNew :: rest := by
  unfold start_handler
  have hc : (cur_sid.isTruthy && cur_tok.isTruthy) = true := by rw [hs, ht]; rfl
  cases new_session remote.newResp with
  | error e =>
    rw [if_pos hc]
    exact ⟨[], rfl⟩
  | ok info =>
    cases create_session_token remote.tokenResp with
    | error e =>
      rw [if_pos hc]
      exact ⟨[Event.callToken], rfl⟩
    | ok tok =>
      rw [if_pos hc]
      exact ⟨[Event.callToken, Event.sleepMs 1000, Event.markReady], rfl⟩

/-- C8 witness: with a concrete live session stored, the trace starts with
the stop of the old session before the create-session call. -/
theorem stop_old_before_new_witness :
    ∃ rest, (start_handler (.str "oldsid") (.str "oldtok")
        ⟨PyVal.dict [], PyVal.dict []⟩).2
        = Event.stopOld :: Event.sleepMs 200 :: Event.callNew :: rest :=
  stop_old_before_new (.str "oldsid") (.str "oldtok") ⟨PyVal.dict [], PyVal.dict []⟩
    (by decide) (by decide)

/-- Helper: a character in the plain printable-ASCII range, other than the
quote and the backslash, renders as itself under the JSON string escape. -/
theorem jsonEscapeChar_plain (c : Char) (h1 : 32 ≤ c.toNat) (h2 : c.toNat ≤ 126)
    (h3 : c ≠ '"') (h4 : c ≠ '\\') : jsonEscapeChar c = [c] := by
  have hn : c ≠ '\n' := fun hc => absurd (hc ▸ h1) (by decide)
  have hr : c ≠ '\r' := fun hc => absurd (hc ▸ h1) (by decide)
  have htb : c ≠ '\t' := fun hc => absurd (hc ▸ h1) (by decide)
  have hb : ¬ c.toNat = 8 := by omega
  have hf : ¬ c.toNat = 12 := by omega
  have hrange : ¬ (c.toNat < 32 ∨ 126 < c.toNat) := by omega
  unfold jsonEscapeChar
  rw [if_neg h3, if_neg h4, if_neg hn, if_neg hr, if_neg htb, if_neg hb, if_neg hf,
    if_neg hrange]

/-- Helper: escaping a list of plain printable-ASCII characters is the
identity. -/
theorem flatMap_jsonEscape_plain (l : List Char)
    (h : ∀ c ∈ l, 32 ≤ c.toNat ∧ c.toNat ≤ 126 ∧ c ≠ '"' ∧ c ≠ '\\') :
    l.flatMap jsonEscapeChar = l := by
  induction l with
  | nil => rfl
  | cons c cs ih =>
    have hc := h c (List.mem_cons_self c cs)
    rw [List.flatMap_cons, jsonEscapeChar_plain c hc.1 hc.2.1 hc.2.2.1 hc.2.2.2,
      ih (fun d hd => h d (List.mem_cons_of_mem c hd)), List.singleton_append]

/-- C9 counterexample: a descriptor containing a newline is not delivered
byte-for-byte — the substitution `json.dumps(offer_sdp)[1:-1]` rewrites
the newline into the two-character escape sequence, so the text placed in
the viewer page differs from the original descriptor. -/
theorem offer_sdp_escaped_counterexample :
    json_dumps_str_body "a\nb" = "a\\nb" ∧ "a\\nb" ≠ "a\nb" :=
  ⟨by decide, by decide⟩

/-- C9 amended: the descriptor reaches the viewer page JSON-string-escaped
(`json.dumps` with the surrounding quotes stripped), not byte-for-byte:
a descriptor made only of plain printable ASCII (codes 32-126, no quote,
no backslash) passes through unmodified, while newlines and the other
escaped characters are delivered as their JSON escape sequences, to be
decoded by the string parsing on the viewer side. -/
theorem offer_sdp_plain_ascii_passthrough (s : String)
    (h : ∀ c ∈ s.data, 32 ≤ c.toNat ∧ c.toNat ≤ 126 ∧ c ≠ '"' ∧ c ≠ '\\') :
    json_dumps_str_body s = s := by
  unfold json_dumps_str_body
  rw [flatMap_jsonEscape_plain s.data h]

/-- C9 amended, witness: a concrete plain-ASCII descriptor is substituted
byte-for-byte. -/
theorem offer_sdp_plain_ascii_passthrough_witness :
    json_dumps_str_body "v=0 o=- s=heygen" = "v=0 o=- s=heygen" :=
  offer_sdp_plain_ascii_passthrough "v=0 o=- s=heygen" (by decide)

end Avatharam
